import Mathlib

/-!
Verification of the serving core of a YOLO inference API (src/main.py).

The embedding models the module-level mutable globals of the server, the
request handlers (`predict`, `predict_visualization`, `set_default_model`,
`describe_model`, `get_metrics`) and the annotator helper
`add_bboxs_on_img`.  Wall-clock times and latencies are rationals; the
opaque collaborators (image codec, YOLO model) are abstracted by the
outcome they hand back to the handler: either an exception or the list of
detections, carried by `InferOutcome`.
-/

namespace YoloApi

/-- Python integer conversion of a number: truncation toward zero, as in
the percentage computation of `add_bboxs_on_img`. -/
def pyInt (q : ℚ) : ℤ := if 0 ≤ q then ⌊q⌋ else ⌈q⌉

/-- Python rounding to an integer: round half to even. -/
def roundHalfEven (q : ℚ) : ℤ :=
  let f := ⌊q⌋
  let r := q - f
  if r < 1 / 2 then f
  else if 1 / 2 < r then f + 1
  else if f % 2 = 0 then f else f + 1

/-- Python `round(q, 2)`: round to two decimal places, half to even. -/
def pyRound2 (q : ℚ) : ℚ := (roundHalfEven (q * 100) : ℚ) / 100

/-- A single detection as produced by the model collaborator: class name,
confidence, xyxy bounding box and integer class index. -/
structure Detection where
  label : String
  confidence : ℚ
  xmin : ℚ
  ymin : ℚ
  xmax : ℚ
  ymax : ℚ
  cls : ℕ
  deriving DecidableEq

/-- The module-level mutable state of src/main.py: the fixed model
registry (kept as its ordered key list, since handles are only ever
resolved by name), the mutable default name, the four metrics globals,
and the Prometheus metric objects (`time_gauge` as its current value,
`request_number` as its count, `confidence_distribution` as the sequence
of observed values). -/
structure ServerState where
  models : List String
  default_model_name : String
  request_count : ℕ
  total_latency : ℚ
  max_latency : ℚ
  request_timestamps : List ℚ
  time_gauge : ℚ
  request_number : ℕ
  confidence_distribution : List ℚ
  deriving DecidableEq

/-- The state right after module initialization: two registered models,
`model_0` as default, all metrics zeroed. -/
def initState : ServerState :=
  { models := ["model_0", "model_1"]
    default_model_name := "model_0"
    request_count := 0
    total_latency := 0
    max_latency := 0
    request_timestamps := []
    time_gauge := 0
    request_number := 0
    confidence_distribution := [] }

/-- Response of the set-default endpoint: 404 error body or success with
the new default name. -/
inductive SetDefaultResponse where
  | notFound
  | ok (default_model : String)
  deriving DecidableEq

/-- Handler of `GET /management/models/{model}/set-default`: reject an
unregistered name with 404 leaving state alone, otherwise overwrite the
global `default_model_name`. -/
def set_default_model (model : String) (s : ServerState) :
    SetDefaultResponse × ServerState :=
  if model ∉ s.models then (.notFound, s)
  else (.ok model, { s with default_model_name := model })

/-- Response of the describe endpoint. -/
inductive DescribeResponse where
  | notFound
  | ok (model : String)
  deriving DecidableEq

/-- Handler of `GET /management/models/{model}/describe`: 404 for an
unregistered name, otherwise the static config record; never mutates
state. -/
def describe_model (model : String) (s : ServerState) :
    DescribeResponse × ServerState :=
  if model ∉ s.models then (.notFound, s) else (.ok model, s)

/-- The model-selection branch shared by both predict handlers:
`if model and model in models` — `None` and the empty string are falsy in
Python, every other provided name must be a registered key, and otherwise
the current default is used. -/
def chooseModelName (model : Option String) (s : ServerState) : String :=
  match model with
  | none => s.default_model_name
  | some m => if m ≠ "" ∧ m ∈ s.models then m else s.default_model_name

/-- What the opaque decode/inference pipeline hands back to the handler:
either an exception (bad image bytes, model rejecting the input) or the
list of detections. -/
inductive InferOutcome where
  | ok (dets : List Detection)
  | err
  deriving DecidableEq

/-- An unhandled exception escaping a request handler. -/
inductive RequestError where
  | inferenceError
  | indexError
  deriving DecidableEq

/-- One element of the `predictions` list built by `predict`: label,
confidence rounded to two decimals, xyxy box. -/
structure PredictionEntry where
  label : String
  confidence : ℚ
  bbox : List ℚ
  deriving DecidableEq

/-- The JSON body returned by `predict` on success. -/
structure PredictResponse where
  predictions : List PredictionEntry
  model_used : String
  deriving DecidableEq

/-- The entry `predict` appends for one detection. -/
def predEntry (d : Detection) : PredictionEntry :=
  { label := d.label
    confidence := pyRound2 d.confidence
    bbox := [d.xmin, d.ymin, d.xmax, d.ymax] }

/-- Handler of `POST /predict`, parameterized by the request start time
`t`, the time `tEnd` read after inference, the optional `model` query
parameter, and the decode/inference outcome.  Faithful to the statement
order of the source: the timestamp is appended first; an inference
exception propagates before any counter moves; the four counters and the
two Prometheus scalars are updated before `predictions[0]` is read, so an
empty prediction list raises IndexError only after they moved. -/
def predict (t tEnd : ℚ) (model : Option String) (outcome : InferOutcome)
    (s : ServerState) : Except RequestError PredictResponse × ServerState :=
  let s1 := { s with request_timestamps := s.request_timestamps ++ [t] }
  let chosen_model_name := chooseModelName model s1
  match outcome with
  | .err => (Except.error .inferenceError, s1)
  | .ok dets =>
    let predictions := dets.map predEntry
    let elapsed := tEnd - t
    let rc := s1.request_count + 1
    let tl := s1.total_latency + elapsed
    let ml := if s1.max_latency < elapsed then elapsed else s1.max_latency
    let s2 := { s1 with
      request_count := rc
      total_latency := tl
      max_latency := ml
      time_gauge := tl / (rc : ℚ)
      request_number := s1.request_number + 1 }
    match predictions with
    | [] => (Except.error .indexError, s2)
    | p :: _ =>
      (Except.ok { predictions := predictions, model_used := chosen_model_name },
       { s2 with
         confidence_distribution := s2.confidence_distribution ++ [p.confidence] })

/-- Draw order relation of the annotator: ascending bounding-box xmin. -/
def detLE (a b : Detection) : Prop := a.xmin ≤ b.xmin

instance : DecidableRel detLE := fun a b =>
  inferInstanceAs (Decidable (a.xmin ≤ b.xmin))

instance : IsTotal Detection detLE := ⟨fun a b => le_total a.xmin b.xmin⟩

instance : IsTrans Detection detLE := ⟨fun _ _ _ h1 h2 => le_trans h1 h2⟩

/-- The sort performed by the annotator on the prediction rows
(sort_values by the xmin column, ascending, with the default quicksort
kind, which pandas documents as not stable): the code guarantees only
some permutation ordered by the xmin key, leaving the relative order of
equal keys unspecified.  The model fixes one admissible tie order by
using insertion sort; no theorem relies on that choice. -/
def sortByXmin (dets : List Detection) : List Detection :=
  List.insertionSort detLE dets

/-- The label written next to each box: the f-string
`"<name>: <int(confidence*100)>%"`. -/
def labelText (d : Detection) : String :=
  d.label ++ ": " ++ toString (pyInt (d.confidence * 100)) ++ "%"

/-- One box-label draw call: box, text, and the class index that keys
the deterministic color choice. -/
structure DrawOp where
  bbox : List ℚ
  text : String
  colorClass : ℕ
  deriving DecidableEq

/-- The draw call emitted for one detection row. -/
def drawOp (d : Detection) : DrawOp :=
  { bbox := [d.xmin, d.ymin, d.xmax, d.ymax]
    text := labelText d
    colorClass := d.cls }

/-- The annotator body of add_bboxs_on_img: sort the rows by xmin
ascending, then draw each one as a box plus label.  The returned list is
the sequence of draw calls, in order. -/
def add_bboxs_on_img (dets : List Detection) : List DrawOp :=
  (sortByXmin dets).map drawOp

/-- The label text as the spec words it, for comparison with the code:
the percentage is `confidence*100` rounded to the NEAREST integer. -/
def labelTextSpec (d : Detection) : String :=
  d.label ++ ": " ++ toString (round (d.confidence * 100)) ++ "%"

/-- Handler of `POST /predict_visualization`: appends the request start
time to the shared timestamp list, resolves a model, and on success
returns the annotated image; it touches none of the other metrics
globals. -/
def predict_visualization (t : ℚ) (model : Option String)
    (outcome : InferOutcome) (s : ServerState) :
    Except RequestError (List DrawOp) × ServerState :=
  let s1 := { s with request_timestamps := s.request_timestamps ++ [t] }
  let chosen_model_name := chooseModelName model s1
  match outcome with
  | .err => (Except.error .inferenceError, s1)
  | .ok dets =>
    let _ := chosen_model_name
    (Except.ok (add_bboxs_on_img dets), s1)

/-- The JSON body of `GET /metrics`. -/
structure MetricsResponse where
  request_rate_per_minute : ℕ
  avg_latency_ms : ℚ
  max_latency_ms : ℚ
  total_requests : ℕ
  deriving DecidableEq

/-- The pruning while-loop of `get_metrics`: pop from the front while the
head timestamp is older than the cutoff. -/
def pruneLoop (cutoff : ℚ) : List ℚ → List ℚ
  | [] => []
  | t :: ts => if t < cutoff then pruneLoop cutoff ts else t :: ts

/-- Handler of `GET /metrics`: prune the timestamp list in place, then
report rate, average and max latency in milliseconds (rounded to two
decimals) and the total request count. -/
def get_metrics (now : ℚ) (s : ServerState) : MetricsResponse × ServerState :=
  let one_min_ago := now - 60
  let ts := pruneLoop one_min_ago s.request_timestamps
  let request_rate := ts.length
  let avg_latency : ℚ :=
    if s.request_count ≠ 0 then s.total_latency / (s.request_count : ℚ) * 1000
    else 0
  let max_latency_ms := s.max_latency * 1000
  ({ request_rate_per_minute := request_rate
     avg_latency_ms := pyRound2 avg_latency
     max_latency_ms := pyRound2 max_latency_ms
     total_requests := s.request_count },
   { s with request_timestamps := ts })

/-- One request served by the app, abstracting over everything outside
the server state (clock readings, uploaded bytes, model behaviour). -/
inductive Op where
  | health
  | listModels
  | groupInfo
  | describe (model : String)
  | setDefault (model : String)
  | predictReq (t tEnd : ℚ) (model : Option String) (outcome : InferOutcome)
  | vizReq (t : ℚ) (model : Option String) (outcome : InferOutcome)
  | metricsReq (now : ℚ)

/-- The state transition performed by one request.  The read-only
endpoints (health, model list, group info) leave the state alone. -/
def applyOp (s : ServerState) : Op → ServerState
  | .health => s
  | .listModels => s
  | .groupInfo => s
  | .describe m => (describe_model m s).2
  | .setDefault m => (set_default_model m s).2
  | .predictReq t tEnd m o => (predict t tEnd m o s).2
  | .vizReq t m o => (predict_visualization t m o s).2
  | .metricsReq now => (get_metrics now s).2

/-- The server state reached after serving a sequence of requests from
startup. -/
def runOps (ops : List Op) : ServerState := ops.foldl applyOp initState

/-- Modelled from the spec: the metrics snapshot as the spec words it —
request_rate_per_minute counts the timestamps remaining after pruning
every entry older than 60 seconds, avg_latency_ms is
`(total_latency / request_count) * 1000` when the count is positive and
`0.0` otherwise, max_latency_ms is `max_latency * 1000`, both latency
figures rounded to two decimal places, and total_requests is the request
count. -/
def snapshotSpec (now : ℚ) (s : ServerState) : MetricsResponse :=
  { request_rate_per_minute :=
      (s.request_timestamps.filter fun x => decide (now - 60 ≤ x)).length
    avg_latency_ms :=
      if 0 < s.request_count then
        pyRound2 (s.total_latency / (s.request_count : ℚ) * 1000)
      else 0
    max_latency_ms := pyRound2 (s.max_latency * 1000)
    total_requests := s.request_count }

/-- A thread executing the unsynchronized shared-global increment
`request_count += 1` of `predict`, split at CPython bytecode granularity:
program counter 0 is the LOAD of the global into the local register,
program counter 1 the STORE of register + 1 back to the global.  The
interpreter may switch threads between the two. -/
structure IncThread where
  pc : ℕ
  reg : ℕ
  deriving DecidableEq

/-- Shared counter plus two threads, each about to run
`request_count += 1` once. -/
structure Conc2State where
  counter : ℕ
  thread0 : IncThread
  thread1 : IncThread
  deriving DecidableEq

/-- One bytecode step of a thread against the shared counter: returns
the new counter value and the new thread state. -/
def stepThread (c : ℕ) (th : IncThread) : ℕ × IncThread :=
  match th.pc with
  | 0 => (c, { pc := 1, reg := c })
  | 1 => (th.reg + 1, { th with pc := 2 })
  | _ => (c, th)

/-- Run one step of the scheduled thread (`false` = thread 0). -/
def schedStep (s : Conc2State) (tid : Bool) : Conc2State :=
  if tid then
    let r := stepThread s.counter s.thread1
    { s with counter := r.1, thread1 := r.2 }
  else
    let r := stepThread s.counter s.thread0
    { s with counter := r.1, thread0 := r.2 }

/-- Run a schedule (a list of thread choices) from counter 0 with both
threads at their first instruction. -/
def runSched (sched : List Bool) : Conc2State :=
  sched.foldl schedStep ⟨0, ⟨0, 0⟩, ⟨0, 0⟩⟩

/-- A detection whose confidence 0.876 separates truncation from
rounding to the nearest integer. -/
def c7Det : Detection :=
  { label := "person", confidence := 219 / 250
    xmin := 0, ymin := 0, xmax := 10, ymax := 10, cls := 0 }

/-- A concrete metrics state used to instantiate the snapshot theorem:
two requests totalling 3 seconds, max 2 seconds, one stale and one fresh
timestamp. -/
def sampleMetricsState : ServerState :=
  { initState with
    request_count := 2
    total_latency := 3
    max_latency := 2
    request_timestamps := [10, 100] }

/-- A concrete state used to instantiate the sliding-window theorem: two
recorded timestamps, both older than the window at read time 100. -/
def sampleWindowState : ServerState :=
  { initState with request_timestamps := [10, 20] }

/-! Helper lemmas. -/

theorem pruneLoop_eq_nil {c : ℚ} :
    ∀ {l : List ℚ}, (∀ x ∈ l, x < c) → pruneLoop c l = []
  | [], _ => rfl
  | t :: ts, h => by
    rw [pruneLoop, if_pos (h t (List.mem_cons_self t ts))]
    exact pruneLoop_eq_nil fun x hx => h x (List.mem_cons_of_mem t hx)

theorem pruneLoop_eq_filter {c : ℚ} :
    ∀ {l : List ℚ}, l.Pairwise (· ≤ ·) →
      pruneLoop c l = l.filter fun x => decide (c ≤ x)
  | [], _ => rfl
  | t :: ts, h => by
    rcases List.pairwise_cons.mp h with ⟨h1, h2⟩
    by_cases ht : t < c
    · rw [pruneLoop, if_pos ht, pruneLoop_eq_filter h2, List.filter_cons]
      simp [not_le.mpr ht]
    · have hc : c ≤ t := not_lt.mp ht
      rw [pruneLoop, if_neg ht, List.filter_cons, if_pos (decide_eq_true hc),
        List.filter_eq_self.mpr fun a ha => by
          simpa using le_trans hc (h1 a ha)]

theorem pyRound2_zero : pyRound2 0 = 0 := by
  norm_num [pyRound2, roundHalfEven]

theorem applyOp_models (s : ServerState) (op : Op) :
    (applyOp s op).models = s.models := by
  cases op with
  | health => rfl
  | listModels => rfl
  | groupInfo => rfl
  | describe m =>
    simp only [applyOp, describe_model]
    split <;> rfl
  | setDefault m =>
    simp only [applyOp, set_default_model]
    split <;> rfl
  | predictReq t tEnd m o =>
    cases o with
    | err => rfl
    | ok dets =>
      cases dets with
      | nil => rfl
      | cons d ds => rfl
  | vizReq t m o => cases o <;> rfl
  | metricsReq now => rfl

theorem applyOp_default (s : ServerState) (op : Op) :
    (applyOp s op).default_model_name = s.default_model_name ∨
      (applyOp s op).default_model_name ∈ s.models := by
  cases op with
  | health => exact Or.inl rfl
  | listModels => exact Or.inl rfl
  | groupInfo => exact Or.inl rfl
  | describe m =>
    simp only [applyOp, describe_model]
    split <;> exact Or.inl rfl
  | setDefault m =>
    simp only [applyOp, set_default_model]
    split
    · exact Or.inl rfl
    · next hm => exact Or.inr (not_not.mp hm)
  | predictReq t tEnd m o =>
    cases o with
    | err => exact Or.inl rfl
    | ok dets =>
      cases dets with
      | nil => exact Or.inl rfl
      | cons d ds => exact Or.inl rfl
  | vizReq t m o => cases o <;> exact Or.inl rfl
  | metricsReq now => exact Or.inl rfl

theorem applyOp_default_mem (s : ServerState) (op : Op)
    (h : s.default_model_name ∈ s.models) :
    (applyOp s op).default_model_name ∈ (applyOp s op).models := by
  rw [applyOp_models]
  rcases applyOp_default s op with he | hm
  · rw [he]; exact h
  · exact hm

theorem foldl_applyOp_models (ops : List Op) :
    ∀ s : ServerState, (ops.foldl applyOp s).models = s.models := by
  induction ops with
  | nil => intro s; rfl
  | cons op ops ih =>
    intro s
    rw [List.foldl_cons, ih, applyOp_models]

theorem runOps_models (ops : List Op) :
    (runOps ops).models = ["model_0", "model_1"] := by
  rw [runOps, foldl_applyOp_models]
  rfl

/-! Claim theorems and their witnesses. -/

/-- C1: the claim fails on the code.  A predict request whose inference
yields zero detections reaches `confidence_distribution.observe(predictions[0]["confidence"])`
with an empty list; the access is not guarded, so the handler raises
IndexError instead of completing with a success response. -/
theorem predict_zero_detections_indexError (t tEnd : ℚ) (m : Option String)
    (s : ServerState) :
    (predict t tEnd m (.ok []) s).1 = Except.error RequestError.indexError := rfl

/-- C2: the claim fails on the code.  The increment `request_count += 1`
is an unsynchronized read-modify-write on a shared global; interleaving
two threads LOAD/LOAD/STORE/STORE makes both complete while the counter
ends at 1, whereas any serialized schedule ends at 2. -/
theorem concurrent_increment_lost_update :
    (runSched [false, true, false, true]).counter = 1 ∧
    (runSched [false, true, false, true]).thread0.pc = 2 ∧
    (runSched [false, true, false, true]).thread1.pc = 2 ∧
    (runSched [false, false, true, true]).counter = 2 := by decide

/-- C8 is false on the code at a concrete input: a predict_visualization
request appends its start time to the shared `request_timestamps` list,
so the recent-timestamps sequence differs after the request. -/
theorem predict_visualization_timestamps_counterexample :
    (predict_visualization 5 none (.ok []) initState).2.request_timestamps ≠
      initState.request_timestamps := by
  simp [predict_visualization, initState]

/-- C8 amended: a predict_visualization request leaves request_count,
total_latency, max_latency, the Prometheus gauge/counter and the
confidence histogram unchanged, but appends its start time to the
recent-timestamps sequence (thereby affecting request_rate_per_minute). -/
theorem predict_visualization_frame (t : ℚ) (m : Option String)
    (o : InferOutcome) (s : ServerState) :
    ((predict_visualization t m o s).2.request_count = s.request_count ∧
      (predict_visualization t m o s).2.total_latency = s.total_latency ∧
      (predict_visualization t m o s).2.max_latency = s.max_latency ∧
      (predict_visualization t m o s).2.time_gauge = s.time_gauge ∧
      (predict_visualization t m o s).2.request_number = s.request_number ∧
      (predict_visualization t m o s).2.confidence_distribution =
        s.confidence_distribution) ∧
    (predict_visualization t m o s).2.request_timestamps =
      s.request_timestamps ++ [t] := by
  cases o <;> exact ⟨⟨rfl, rfl, rfl, rfl, rfl, rfl⟩, rfl⟩

/-- C9: in every state reachable from startup by any sequence of
requests, the default model name is a key of the registry: it holds of
the initial state and every handler preserves it (set_default only
writes names it has checked are registered). -/
theorem default_model_always_registered (ops : List Op) :
    (runOps ops).default_model_name ∈ (runOps ops).models := by
  rw [runOps]
  have h : ∀ s : ServerState, s.default_model_name ∈ s.models →
      (ops.foldl applyOp s).default_model_name ∈ (ops.foldl applyOp s).models := by
    induction ops with
    | nil => exact fun s hs => hs
    | cons op ops ih =>
      intro s hs
      rw [List.foldl_cons]
      exact ih _ (applyOp_default_mem s op hs)
  exact h initState (by simp [initState])

/-- C10: metrics updates in predict are not atomic with request success.
On an inference failure the appended timestamp survives while the
counters are untouched; on the zero-detection IndexError the counters
(count, total and max latency) have already been updated while the
confidence histogram has not; nothing is rolled back in either case. -/
theorem predict_metrics_never_rolled_back (t tEnd : ℚ) (m : Option String)
    (s : ServerState) :
    ((predict t tEnd m .err s).1 = Except.error RequestError.inferenceError ∧
      (predict t tEnd m .err s).2.request_timestamps =
        s.request_timestamps ++ [t] ∧
      (predict t tEnd m .err s).2.request_count = s.request_count ∧
      (predict t tEnd m .err s).2.total_latency = s.total_latency ∧
      (predict t tEnd m .err s).2.max_latency = s.max_latency ∧
      (predict t tEnd m .err s).2.confidence_distribution =
        s.confidence_distribution) ∧
    ((predict t tEnd m (.ok []) s).1 = Except.error RequestError.indexError ∧
      (predict t tEnd m (.ok []) s).2.request_timestamps =
        s.request_timestamps ++ [t] ∧
      (predict t tEnd m (.ok []) s).2.request_count = s.request_count + 1 ∧
      (predict t tEnd m (.ok []) s).2.total_latency =
        s.total_latency + (tEnd - t) ∧
      (predict t tEnd m (.ok []) s).2.max_latency =
        (if s.max_latency < tEnd - t then tEnd - t else s.max_latency) ∧
      (predict t tEnd m (.ok []) s).2.confidence_distribution =
        s.confidence_distribution) :=
  ⟨⟨rfl, rfl, rfl, rfl, rfl, rfl⟩, rfl, rfl, rfl, rfl, rfl, rfl⟩

/-- C3: the metrics handler returns exactly the snapshot the spec
describes — the rate counts the timestamps surviving the 60-second
pruning, the average latency is `(total/count)*1000` (0 for an empty
history), the max latency is `max*1000`, both rounded to two decimals,
and total_requests is the request count.  The timestamp list is
nondecreasing in every sequential execution, which makes the front-pop
pruning loop agree with pruning all stale entries. -/
theorem get_metrics_matches_snapshotSpec (now : ℚ) (s : ServerState)
    (hs : s.request_timestamps.Pairwise (· ≤ ·)) :
    (get_metrics now s).1 = snapshotSpec now s := by
  simp only [get_metrics, snapshotSpec]
  rw [pruneLoop_eq_filter hs]
  by_cases hc : s.request_count = 0
  · simp [hc, pyRound2_zero]
  · simp [hc, Nat.pos_of_ne_zero hc]

/-- C3 witness: on a state with two requests totalling 3 seconds (max 2)
and timestamps 10 and 100 read at time 130, the snapshot reports rate 1,
average 1500 ms, max 2000 ms, total 2. -/
theorem get_metrics_matches_snapshotSpec_witness :
    (get_metrics 130 sampleMetricsState).1 = snapshotSpec 130 sampleMetricsState ∧
    snapshotSpec 130 sampleMetricsState =
      { request_rate_per_minute := 1
        avg_latency_ms := 1500
        max_latency_ms := 2000
        total_requests := 2 } := by
  constructor
  · exact get_metrics_matches_snapshotSpec 130 sampleMetricsState
      (by norm_num [sampleMetricsState, initState, List.pairwise_cons])
  · norm_num [snapshotSpec, sampleMetricsState, initState, pyRound2,
      roundHalfEven, List.filter_cons, MetricsResponse.mk.injEq,
      Int.floor_eq_iff]

/-- C4: set_default on an unregistered name returns NotFound and leaves
the whole state unchanged; on a registered name it returns success with
that name, the default becomes that name, and a subsequent resolution
with no model parameter yields the model just set. -/
theorem set_default_model_contract (name : String) (s : ServerState) :
    (name ∉ s.models → set_default_model name s = (.notFound, s)) ∧
    (name ∈ s.models →
      (set_default_model name s).1 = .ok name ∧
      (set_default_model name s).2.default_model_name = name ∧
      chooseModelName none (set_default_model name s).2 = name) := by
  constructor
  · intro h
    simp only [set_default_model]
    rw [if_pos h]
  · intro h
    simp only [set_default_model]
    rw [if_neg (not_not_intro h)]
    exact ⟨rfl, rfl, rfl⟩

/-- C4 witness: on the startup state, setting the unknown name `"other"`
is a NotFound no-op, while setting `"model_1"` succeeds and makes
parameterless resolution return `"model_1"`. -/
theorem set_default_model_contract_witness :
    set_default_model "other" initState = (.notFound, initState) ∧
    ((set_default_model "model_1" initState).1 = .ok "model_1" ∧
      (set_default_model "model_1" initState).2.default_model_name = "model_1" ∧
      chooseModelName none (set_default_model "model_1" initState).2 = "model_1") :=
  ⟨(set_default_model_contract "other" initState).1 (by decide),
   (set_default_model_contract "model_1" initState).2 (by decide)⟩

/-- C6: recording in predict only appends to the timestamp list (pruning
is lazy — it never happens on a write); once every recorded timestamp is
more than 60 seconds old, a read reports rate 0; and after a read on a
nondecreasing history every surviving entry lies within the trailing
60-second window. -/
theorem sliding_window_contract (now t tEnd : ℚ) (m : Option String)
    (o : InferOutcome) (s : ServerState) :
    ((predict t tEnd m o s).2.request_timestamps =
      s.request_timestamps ++ [t]) ∧
    ((∀ x ∈ s.request_timestamps, x < now - 60) →
      (get_metrics now s).1.request_rate_per_minute = 0) ∧
    (s.request_timestamps.Pairwise (· ≤ ·) →
      ∀ x ∈ (get_metrics now s).2.request_timestamps, now - 60 ≤ x) := by
  refine ⟨?_, ?_, ?_⟩
  · cases o with
    | err => rfl
    | ok dets =>
      cases dets with
      | nil => rfl
      | cons d ds => rfl
  · intro h
    simp only [get_metrics]
    rw [pruneLoop_eq_nil h]
    rfl
  · intro hs x hx
    simp only [get_metrics] at hx
    rw [pruneLoop_eq_filter hs] at hx
    simpa using List.of_mem_filter hx

/-- C6 witness: with timestamps 10 and 20 recorded and the clock at 100,
a predict at time 200 appends its timestamp, the metrics read reports
rate 0, and every entry surviving the read is within the window. -/
theorem sliding_window_contract_witness :
    ((predict 200 201 none .err sampleWindowState).2.request_timestamps =
      sampleWindowState.request_timestamps ++ [200]) ∧
    ((get_metrics 100 sampleWindowState).1.request_rate_per_minute = 0) ∧
    (∀ x ∈ (get_metrics 100 sampleWindowState).2.request_timestamps,
      (100 : ℚ) - 60 ≤ x) := by
  obtain ⟨h1, h2, h3⟩ :=
    sliding_window_contract 100 200 201 none .err sampleWindowState
  refine ⟨h1, h2 ?_, h3 ?_⟩
  · norm_num [sampleWindowState, initState, List.forall_mem_cons]
  · norm_num [sampleWindowState, initState, List.pairwise_cons]

/-- C5: on any reachable server state, a predict request carrying a
registered model name gets exactly that model and reports it as
model_used, while an absent or unknown name falls back to the current
default, whose name is reported; resolution itself never fails. -/
theorem predict_model_used_contract (ops : List Op) (m : Option String)
    (t tEnd : ℚ) (d : Detection) (ds : List Detection) :
    (∀ name, m = some name → name ∈ (runOps ops).models →
      (predict t tEnd m (.ok (d :: ds)) (runOps ops)).1 =
        Except.ok { predictions := (d :: ds).map predEntry
                    model_used := name }) ∧
    ((∀ name, m = some name → name ∉ (runOps ops).models) →
      (predict t tEnd m (.ok (d :: ds)) (runOps ops)).1 =
        Except.ok { predictions := (d :: ds).map predEntry
                    model_used := (runOps ops).default_model_name }) := by
  constructor
  · rintro name rfl hmem
    have hne : name ≠ "" := by
      rw [runOps_models ops] at hmem
      rcases List.mem_cons.mp hmem with h | h
      · subst h; decide
      · rcases List.mem_cons.mp h with h2 | h2
        · subst h2; decide
        · simp at h2
    simp only [predict, chooseModelName, List.map_cons]
    rw [if_pos ⟨hne, hmem⟩]
  · intro hna
    cases m with
    | none => rfl
    | some name =>
      have hn := hna name rfl
      simp only [predict, chooseModelName, List.map_cons]
      rw [if_neg fun hcon => hn hcon.2]

/-- C5 witness: on the startup state, a predict for the registered name
`"model_1"` reports model_used `"model_1"`, and a predict with no model
parameter reports the current default. -/
theorem predict_model_used_contract_witness :
    ((predict 0 1 (some "model_1") (.ok [c7Det]) (runOps [])).1 =
      Except.ok { predictions := [c7Det].map predEntry
                  model_used := "model_1" }) ∧
    ((predict 0 1 none (.ok [c7Det]) (runOps [])).1 =
      Except.ok { predictions := [c7Det].map predEntry
                  model_used := (runOps []).default_model_name }) :=
  ⟨(predict_model_used_contract [] (some "model_1") 0 1 c7Det []).1
      "model_1" rfl (by decide),
   (predict_model_used_contract [] none 0 1 c7Det []).2
      (fun name h => Option.noConfusion h)⟩

/-- C7 is false on the code at a concrete input: for a detection with
confidence 0.876 the annotator writes `person: 87%` (Python `int`
truncates toward zero), while rounding 87.6 to the nearest integer gives
88, so the drawn label differs from the label the spec requires. -/
theorem annotator_label_counterexample :
    (add_bboxs_on_img [c7Det]).map DrawOp.text = ["person: 87%"] ∧
    labelTextSpec c7Det = "person: 88%" ∧
    (add_bboxs_on_img [c7Det]).map DrawOp.text ≠ [labelTextSpec c7Det] := by
  have h87 : pyInt (c7Det.confidence * 100) = 87 := by
    show pyInt ((219 : ℚ) / 250 * 100) = 87
    rw [pyInt, if_pos (by norm_num)]
    exact Int.floor_eq_iff.mpr ⟨by norm_num, by norm_num⟩
  have h88 : round (c7Det.confidence * 100) = 88 := by
    show round ((219 : ℚ) / 250 * 100) = 88
    rw [round_eq]
    exact Int.floor_eq_iff.mpr ⟨by norm_num, by norm_num⟩
  have e1 : (add_bboxs_on_img [c7Det]).map DrawOp.text = ["person: 87%"] := by
    show [(drawOp c7Det).text] = _
    simp only [drawOp, labelText, h87]
    decide
  have e2 : labelTextSpec c7Det = "person: 88%" := by
    simp only [labelTextSpec, h88]
    decide
  refine ⟨e1, e2, ?_⟩
  rw [e1, e2]
  decide

/-- C7 amended: the annotator draws a permutation of the detections in
ascending (non-strict) order of bbox xmin — the relative order of equal
xmin keys is left unspecified, since the sort the code uses is an
unstable quicksort — and each drawn label is
`"<label>: <int(confidence*100)>%"` where the percentage is truncated
toward zero (the floor for the nonnegative confidences), not rounded to
the nearest integer. -/
theorem add_bboxs_on_img_contract (dets : List Detection) :
    ∃ l : List Detection,
      add_bboxs_on_img dets = l.map drawOp ∧
      l.Perm dets ∧
      l.Pairwise (fun a b => a.xmin ≤ b.xmin) ∧
      (∀ d : Detection, (drawOp d).text =
        d.label ++ ": " ++ toString (pyInt (d.confidence * 100)) ++ "%") :=
  ⟨sortByXmin dets, rfl, List.perm_insertionSort detLE dets,
   List.sorted_insertionSort detLE dets, fun _ => rfl⟩

end YoloApi
